import Mathlib

/-
Verification of the event-ingestion and session-correlation pipeline of the
seegap-analytics repository.

The development shallowly embeds three pieces of the source tree:
  * the ingestion endpoint `POST /track` (src/backend/src/routes/tracking.ts),
  * the per-route rate-limiter configurations (src middleware rateLimiter.ts),
  * the browser tracking script (src/backend/src/public/tracking-script.js),
and proves or refutes the specified properties about them.

JavaScript strings that may be `undefined`/`null` are embedded as
`Option String`; JavaScript truthiness on such values is `jsTruthy`
(`undefined`, `null` and the empty string are falsy, every other string is
truthy).  `customData` is an opaque JSON bag that the code never inspects;
it is embedded as an association list of string pairs.
-/

/-- Truthiness of a possibly-absent JavaScript string value:
`undefined`/`null` and the empty string are falsy. -/
def jsTruthy : Option String → Bool
  | none => false
  | some s => !s.isEmpty

/-- The JavaScript expression `a || b` on possibly-absent string values. -/
def jsOr (a b : Option String) : Option String :=
  if jsTruthy a then a else b

/-- The JavaScript expression `a || d` where `d` is a plain string default. -/
def jsOrStr (a : Option String) (d : String) : String :=
  match a with
  | none => d
  | some s => if s.isEmpty then d else s

/-- Prefix test on character lists (used to express that an error message
mentions a field name). -/
def charsHasPre : List Char → List Char → Bool
  | [], _ => true
  | _ :: _, [] => false
  | a :: ns, b :: hs => a == b && charsHasPre ns hs

/-- Substring test on character lists. -/
def charsHasSub : List Char → List Char → Bool
  | n, [] => n.isEmpty
  | n, c :: hs => charsHasPre n (c :: hs) || charsHasSub n hs

/-- `strMentions msg name` holds when `name` occurs verbatim inside `msg`. -/
def strMentions (msg name : String) : Bool :=
  charsHasSub name.data msg.data

/-- Opaque JSON bag (`customData`); the code passes it through uninspected. -/
abbrev CustomData : Type := List (String × String)

/-! ## Ingestion endpoint: `router.post('/track')` in
src/backend/src/routes/tracking.ts -/

/-- The JSON body of a `POST /track` request.  Absent keys are `none`. -/
structure TrackRequestBody where
  trackingId : Option String
  eventType : Option String
  pageUrl : Option String
  pageTitle : Option String
  referrer : Option String
  sessionId : Option String
  visitorId : Option String
  customData : Option CustomData
deriving DecidableEq

/-- The record the endpoint hands to downstream processing on acceptance
(the object logged for the background worker in tracking.ts, lines 38-49):
the destructured body fields, `eventType` defaulted to `page_view`,
`customData` defaulted to the empty bag, enriched with the server-observed
user agent and client network address. -/
structure ForwardedEvent where
  trackingId : Option String
  eventType : String
  pageUrl : Option String
  pageTitle : Option String
  referrer : Option String
  sessionId : Option String
  visitorId : Option String
  userAgent : String
  ipAddress : String
  customData : CustomData
deriving DecidableEq

/-- Observable outcome of one `POST /track` request: HTTP status, the JSON
response fields, and the event forwarded downstream (if any). -/
structure TrackResult where
  status : Nat
  success : Bool
  message : Option String
  error : Option String
  forwarded : Option ForwardedEvent
deriving DecidableEq

/-- The constant validation error message of tracking.ts line 29. -/
def missingMsg : String :=
  "Missing required fields: trackingId, pageUrl, sessionId, visitorId"

/-- The `POST /track` handler of tracking.ts lines 12-66.
`userAgentHdr` is the `User-Agent` header, `reqIp` is `req.ip` and
`remoteAddr` is `req.connection.remoteAddress`. -/
def handleTrack (body : TrackRequestBody)
    (userAgentHdr reqIp remoteAddr : Option String) : TrackResult :=
  if !(jsTruthy body.trackingId) || !(jsTruthy body.pageUrl) ||
      !(jsTruthy body.sessionId) || !(jsTruthy body.visitorId) then
    { status := 400, success := false, message := none,
      error := some missingMsg, forwarded := none }
  else
    { status := 200, success := true,
      message := some "Event tracked successfully", error := none,
      forwarded := some {
        trackingId := body.trackingId,
        eventType := body.eventType.getD "page_view",
        pageUrl := body.pageUrl,
        pageTitle := body.pageTitle,
        referrer := body.referrer,
        sessionId := body.sessionId,
        visitorId := body.visitorId,
        userAgent := jsOrStr userAgentHdr "",
        ipAddress := jsOrStr reqIp (jsOrStr remoteAddr ""),
        customData := body.customData.getD [] } }

/-- The four required fields of the `/track` body. -/
inductive ReqField where
  | trackingId
  | pageUrl
  | sessionId
  | visitorId
deriving DecidableEq

/-- The JSON key of a required field. -/
def reqFieldName : ReqField → String
  | .trackingId => "trackingId"
  | .pageUrl => "pageUrl"
  | .sessionId => "sessionId"
  | .visitorId => "visitorId"

/-- Projection of a required field out of a request body. -/
def fieldOf (b : TrackRequestBody) : ReqField → Option String
  | .trackingId => b.trackingId
  | .pageUrl => b.pageUrl
  | .sessionId => b.sessionId
  | .visitorId => b.visitorId

/-- Replace one required field of a request body. -/
def setField (b : TrackRequestBody) : ReqField → Option String → TrackRequestBody
  | .trackingId, v => { b with trackingId := v }
  | .pageUrl, v => { b with pageUrl := v }
  | .sessionId, v => { b with sessionId := v }
  | .visitorId, v => { b with visitorId := v }

/-! ## Scroll-depth handler: the debounced scroll listener of
src/backend/src/public/tracking-script.js, lines 124-141.

Each element of the input list is the integer percentage
`Math.round(scrollY / (scrollHeight - innerHeight) * 100)` computed at one
firing of the 250 ms debounce timer; the accumulator is the handler's
`maxScrollDepth` closure variable (initially 0).  The output collects the
`depth` values of the `scroll_depth` events emitted, in order. -/

def scrollRun : Int → List Int → List Int
  | _, [] => []
  | maxD, d :: ds =>
    if d > maxD ∧ d ≤ 100 then
      if d ≥ 25 ∧ d % 25 = 0 then d :: scrollRun d ds else scrollRun d ds
    else scrollRun maxD ds

/-- Depths emitted over one page load, starting from `maxScrollDepth = 0`. -/
def scrollEmits (ds : List Int) : List Int :=
  scrollRun 0 ds

theorem scrollRun_mem {ds : List Int} {m d : Int} (h : d ∈ scrollRun m ds) :
    m < d ∧ 25 ≤ d ∧ d ≤ 100 ∧ d % 25 = 0 ∧ d ∈ ds := by
  induction ds generalizing m with
  | nil => simp [scrollRun] at h
  | cons a ds ih =>
    rw [scrollRun] at h
    by_cases h1 : a > m ∧ a ≤ 100
    · rw [if_pos h1] at h
      by_cases h2 : a ≥ 25 ∧ a % 25 = 0
      · rw [if_pos h2] at h
        rcases List.mem_cons.mp h with rfl | h
        · exact ⟨h1.1, h2.1, h1.2, h2.2, List.mem_cons_self _ _⟩
        · obtain ⟨hm, h25, h100, hmod, hmem⟩ := ih h
          exact ⟨lt_trans h1.1 hm, h25, h100, hmod, List.mem_cons_of_mem _ hmem⟩
      · rw [if_neg h2] at h
        obtain ⟨hm, h25, h100, hmod, hmem⟩ := ih h
        exact ⟨lt_trans h1.1 hm, h25, h100, hmod, List.mem_cons_of_mem _ hmem⟩
    · rw [if_neg h1] at h
      obtain ⟨hm, h25, h100, hmod, hmem⟩ := ih h
      exact ⟨hm, h25, h100, hmod, List.mem_cons_of_mem _ hmem⟩

theorem scrollRun_pairwise (m : Int) (ds : List Int) :
    (scrollRun m ds).Pairwise (· < ·) := by
  induction ds generalizing m with
  | nil => simp [scrollRun]
  | cons a ds ih =>
    rw [scrollRun]
    by_cases h1 : a > m ∧ a ≤ 100
    · rw [if_pos h1]
      by_cases h2 : a ≥ 25 ∧ a % 25 = 0
      · rw [if_pos h2]
        exact List.pairwise_cons.mpr ⟨fun d hd => (scrollRun_mem hd).1, ih a⟩
      · rw [if_neg h2]; exact ih a
    · rw [if_neg h1]; exact ih m

/-! ## Rate limiter (middleware rateLimiter.ts, `trackingRateLimiter`).

The per-route configurations (window length, maximum, and the JSON body of
the 429 rejection) are taken from the source.  The window-counting
mechanics live in the external `express-rate-limit` library, which is not
part of the source tree. -/

/-- A fixed-window counter for one client key: the time (ms) at which the
current window started and the number of requests counted in it. -/
structure RLWindow where
  windowStart : Nat
  count : Nat
deriving DecidableEq

/-- The JSON body a rate limiter sends on rejection. -/
structure RLResponse where
  status : Nat
  error : String
  retryAfter : Nat
deriving DecidableEq

/-- Modelled from the spec: the fixed-window counting algorithm of the
rate-limiting library (express-rate-limit), which is external to the source
tree.  Per the spec's algorithm: on each request, look up or lazily create
the counter for the key; a window whose duration has elapsed since its
first request is discarded and a fresh one begins; if the counter is below
the policy maximum, increment and allow (`none`); if at or above the
maximum, reject with the policy's rejection response (`some`). -/
def rlStep (windowMs maxReq : Nat) (rejResp : RLResponse)
    (w : Option RLWindow) (now : Nat) : Option RLWindow × Option RLResponse :=
  let cur : RLWindow :=
    match w with
    | none => { windowStart := now, count := 0 }
    | some w0 =>
      if w0.windowStart + windowMs ≤ now then { windowStart := now, count := 0 }
      else w0
  if cur.count < maxReq then (some { cur with count := cur.count + 1 }, none)
  else (some cur, some rejResp)

/-- Window length of `trackingRateLimiter`: `1 * 60 * 1000` ms. -/
def trackingWindowMs : Nat := 1 * 60 * 1000

/-- Maximum of `trackingRateLimiter`:
`parseInt(process.env.MAX_EVENTS_PER_MINUTE || '1000')` — the configured
value when the environment variable is set, 1000 otherwise. -/
def trackingMax (envMax : Option Nat) : Nat := envMax.getD 1000

/-- The 429 body sent by the `trackingRateLimiter` handler (source lines
61-71): a fixed error string and the constant `retryAfter: 60`. -/
def trackingRejectResponse : RLResponse :=
  { status := 429, error := "Too many tracking events, please slow down.",
    retryAfter := 60 }

/-- One request through the tracking-endpoint rate limiter. -/
def trackingStep (envMax : Option Nat) (w : Option RLWindow) (now : Nat) :
    Option RLWindow × Option RLResponse :=
  rlStep trackingWindowMs (trackingMax envMax) trackingRejectResponse w now

/-- Run a trace of request arrival times (ms) through the tracking rate
limiter, returning the final window state for the key. -/
def rlRunTrace (envMax : Option Nat) (times : List Nat) : Option RLWindow :=
  times.foldl (fun w t => (trackingStep envMax w t).fst) none

/-- Remaining time (ms) until the current window expires. -/
def remainingMs (windowMs : Nat) (w : RLWindow) (now : Nat) : Nat :=
  w.windowStart + windowMs - now

/-! ## Client tracker (src/backend/src/public/tracking-script.js).

The tracker is a state machine over the `Analytics` object's mutable
fields.  Browser-environment inputs (the page URL and title, the stored
visitor id, the freshly generated random ids, the global configuration
variables) are collected in `Env`.  `sendEvent` transmissions are recorded
in the `sent` trace in call order; debug logging has no semantic effect and
is not modelled.  The `while` loop of `processEventQueue` is embedded with
explicit fuel: the Boolean result is `true` when the loop exited (queue
empty) and `false` when the fuel ran out with the loop still running, in
which case the returned state is the loop state after that many
iterations. -/

/-- Browser environment and global configuration read by the script. -/
structure Env where
  windowTrackingId : Option String
  autoTrack : Bool
  storedVisitorId : Option String
  freshVisitorId : String
  freshSessionId : String
  href : String
  title : String
  referrer : String
  timestamp : String
  userAgent : String
  screenResolution : String
  viewportSize : String
  language : String
  timezone : String

/-- An entry of `state.eventQueue`: the arguments of a deferred
`trackEvent` call. -/
structure QueuedEvent where
  eventType : String
  customData : Option CustomData
deriving DecidableEq

/-- The payload object built by `trackEvent` and passed to `sendEvent`
(tracking-script.js lines 173-183). -/
structure Payload where
  trackingId : Option String
  visitorId : Option String
  sessionId : Option String
  eventType : String
  pageUrl : String
  pageTitle : String
  referrer : String
  timestamp : String
  customData : CustomData
deriving DecidableEq

/-- The tracker's mutable state (`Analytics.config.trackingId`,
`Analytics.state`, and the trace of payloads handed to `sendEvent`). -/
structure TrackerState where
  trackingId : Option String
  autoTrack : Bool
  visitorId : Option String
  sessionId : Option String
  isInitialized : Bool
  eventQueue : List QueuedEvent
  listenersInstalled : Bool
  sent : List Payload
deriving DecidableEq

/-- `getOrCreateVisitorId`: the stored id when present and non-empty,
otherwise the freshly generated one. -/
def getOrCreateVisitorId (env : Env) : String :=
  jsOrStr env.storedVisitorId env.freshVisitorId

/-- The event payload of tracking-script.js lines 173-183. -/
def mkPayload (env : Env) (s : TrackerState) (eventType : String)
    (customData : Option CustomData) : Payload :=
  { trackingId := s.trackingId,
    visitorId := s.visitorId,
    sessionId := s.sessionId,
    eventType := eventType,
    pageUrl := env.href,
    pageTitle := env.title,
    referrer := env.referrer,
    timestamp := env.timestamp,
    customData := customData.getD [] }

/-- `Analytics.trackEvent` (lines 167-186): while uninitialized, push the
call onto the queue; once initialized, build the payload and send it. -/
def trackEvent (env : Env) (s : TrackerState) (eventType : String)
    (customData : Option CustomData) : TrackerState :=
  if s.isInitialized = false then
    { s with eventQueue :=
        s.eventQueue ++ [{ eventType := eventType, customData := customData }] }
  else
    { s with sent := s.sent ++ [mkPayload env s eventType customData] }

/-- `Object.assign(base, extra)`: entries of `extra` override those of
`base`. -/
def assignData (base extra : CustomData) : CustomData :=
  base.filter (fun p => !(extra.any (fun q => q.fst == p.fst))) ++ extra

/-- The page metadata object built by `trackPageView` (lines 154-163). -/
def pageViewData (env : Env) : CustomData :=
  [("title", env.title), ("url", env.href), ("referrer", env.referrer),
   ("userAgent", env.userAgent), ("screenResolution", env.screenResolution),
   ("viewportSize", env.viewportSize), ("language", env.language),
   ("timezone", env.timezone)]

/-- `Analytics.trackPageView` (lines 153-164). -/
def trackPageView (env : Env) (s : TrackerState)
    (customData : Option CustomData) : TrackerState :=
  trackEvent env s "page_view"
    (some (assignData (pageViewData env) (customData.getD [])))

/-- `Analytics.processEventQueue` (lines 214-219): the
`while (eventQueue.length > 0) { shift; trackEvent }` loop, with fuel.
Returns the loop state together with `true` when the loop exited and
`false` when the fuel was exhausted with the queue still non-empty. -/
def processEventQueue (env : Env) : Nat → TrackerState → TrackerState × Bool
  | 0, s => (s, s.eventQueue.isEmpty)
  | Nat.succ fuel, s =>
    match s.eventQueue with
    | [] => (s, true)
    | e :: rest =>
      processEventQueue env fuel
        (trackEvent env { s with eventQueue := rest } e.eventType e.customData)

/-- The body of `Analytics.init` between the tracking-id check and the
queue drain (lines 39-51): resolve the visitor id, mint the session id,
install the listeners, and, when auto-tracking is on, track the initial
page view. -/
def initCore (env : Env) (s1 : TrackerState) : TrackerState :=
  let s2 := { s1 with visitorId := some (getOrCreateVisitorId env) }
  let s3 := { s2 with sessionId := some env.freshSessionId }
  let s4 := { s3 with listenersInstalled := true }
  if s4.autoTrack then trackPageView env s4 none else s4

/-- `Analytics.init` (lines 27-62).  Returns the resulting state and
`true` when the call returned; `false` when it is still stuck inside the
`processEventQueue` loop after `fuel` iterations (in the source the
statement `this.state.isInitialized = true` runs only after that loop
exits, so a stuck loop leaves the tracker uninitialized forever). -/
def init (env : Env) (fuel : Nat) (s : TrackerState)
    (trackingId : Option String) : TrackerState × Bool :=
  if s.isInitialized then (s, true)
  else
    let s1 := { s with trackingId := jsOr trackingId s.trackingId }
    if jsTruthy s1.trackingId = false then (s1, true)
    else
      let r := processEventQueue env fuel (initCore env s1)
      if r.snd then ({ r.fst with isInitialized := true }, true)
      else (r.fst, false)

/-- The tracker state right after the IIFE builds the `Analytics` object:
`config.trackingId = window.ANALYTICS_TRACKING_ID || null`, nothing
initialized, empty queue, nothing sent. -/
def initialTrackerState (env : Env) : TrackerState :=
  { trackingId := jsOr env.windowTrackingId none,
    autoTrack := env.autoTrack,
    visitorId := none,
    sessionId := none,
    isInitialized := false,
    eventQueue := [],
    listenersInstalled := false,
    sent := [] }

/-- Script load (lines 293-295): auto-initialize when the global
`ANALYTICS_TRACKING_ID` is truthy. -/
def scriptLoad (env : Env) (fuel : Nat) : TrackerState × Bool :=
  if jsTruthy env.windowTrackingId then
    init env fuel (initialTrackerState env) env.windowTrackingId
  else (initialTrackerState env, true)

/-- Host-page interactions with the tracker: explicit or gtag-shim `init`
calls, and `trackEvent` calls (which also cover every installed DOM
listener and the gtag `event` command, all of which funnel into
`trackEvent`), and explicit `trackPageView` calls. -/
inductive Cmd where
  | init (trackingId : Option String) (fuel : Nat)
  | track (eventType : String) (customData : Option CustomData)
  | pageView (customData : Option CustomData)

/-- Apply one interaction to the tracker state. -/
def stepCmd (env : Env) (s : TrackerState) : Cmd → TrackerState
  | .init tid fuel => (init env fuel s tid).fst
  | .track t d => trackEvent env s t d
  | .pageView d => trackPageView env s d

/-- Run a sequence of interactions. -/
def runCmds (env : Env) (s : TrackerState) : List Cmd → TrackerState
  | [] => s
  | c :: cs => runCmds env (stepCmd env s c) cs

/-! ## Helper lemmas about the tracker -/

theorem trackEvent_uninit (env : Env) (s : TrackerState) (t : String)
    (d : Option CustomData) (h : s.isInitialized = false) :
    trackEvent env s t d =
      { s with eventQueue := s.eventQueue ++ [{ eventType := t, customData := d }] } := by
  unfold trackEvent
  rw [if_pos h]

theorem processEventQueue_uninit (env : Env) (fuel : Nat) (s : TrackerState)
    (h : s.isInitialized = false) :
    (processEventQueue env fuel s).fst.sent = s.sent ∧
    (processEventQueue env fuel s).fst.isInitialized = false ∧
    (processEventQueue env fuel s).fst.trackingId = s.trackingId ∧
    (processEventQueue env fuel s).snd = s.eventQueue.isEmpty := by
  induction fuel generalizing s with
  | zero => exact ⟨rfl, h, rfl, rfl⟩
  | succ fuel ih =>
    rw [processEventQueue]
    cases hq : s.eventQueue with
    | nil => exact ⟨rfl, h, rfl, rfl⟩
    | cons e rest =>
      dsimp only
      rw [trackEvent_uninit env { s with eventQueue := rest } e.eventType e.customData h]
      obtain ⟨ha, hb, hc, hd⟩ := ih { s with eventQueue :=
        rest ++ [{ eventType := e.eventType, customData := e.customData }] } h
      exact ⟨ha, hb, hc, by rw [hd]; simp⟩

theorem initCore_facts (env : Env) (s1 : TrackerState)
    (h : s1.isInitialized = false) :
    (initCore env s1).isInitialized = false ∧
    (initCore env s1).sent = s1.sent ∧
    (initCore env s1).trackingId = s1.trackingId ∧
    ((initCore env s1).eventQueue.isEmpty =
      (s1.eventQueue.isEmpty && !s1.autoTrack)) := by
  cases ha : s1.autoTrack with
  | true => simp [initCore, trackPageView, trackEvent, h, ha]
  | false => simp [initCore, trackPageView, trackEvent, h, ha]

theorem init_stuck (env : Env) (fuel : Nat) (s : TrackerState)
    (tid : Option String) (h0 : s.isInitialized = false)
    (ht : jsTruthy (jsOr tid s.trackingId) = true)
    (hq : s.eventQueue ≠ [] ∨ s.autoTrack = true) :
    (init env fuel s tid).snd = false ∧
    (init env fuel s tid).fst.sent = s.sent ∧
    (init env fuel s tid).fst.isInitialized = false := by
  unfold init
  rw [if_neg (by simp [h0])]
  have ht1 : jsTruthy ({ s with trackingId := jsOr tid s.trackingId } :
      TrackerState).trackingId = true := ht
  rw [if_neg (by simp [ht1])]
  dsimp only
  obtain ⟨hI, hS, hT, hQ⟩ := initCore_facts env
    { s with trackingId := jsOr tid s.trackingId } h0
  obtain ⟨pa, pb, pc, pd⟩ := processEventQueue_uninit env fuel
    (initCore env { s with trackingId := jsOr tid s.trackingId }) hI
  have hsnd : (processEventQueue env fuel
      (initCore env { s with trackingId := jsOr tid s.trackingId })).snd = false := by
    rw [pd, hQ]
    rcases hq with hq | hq
    · cases hql : s.eventQueue with
      | nil => exact absurd hql hq
      | cons x xs => simp [hql]
    · simp [hq]
  rw [if_neg (by simp [hsnd])]
  exact ⟨rfl, by rw [pa, hS], pb⟩

/-- The tracker safety invariant: once initialized the configured tracking
id is truthy; every transmitted payload carries the configured tracking id
and a truthy one; and nothing has ever been sent from an uninitialized
tracker. -/
def TrackerInv (s : TrackerState) : Prop :=
  (s.isInitialized = true → jsTruthy s.trackingId = true) ∧
  (∀ p ∈ s.sent, p.trackingId = s.trackingId ∧ jsTruthy p.trackingId = true) ∧
  (s.sent ≠ [] → s.isInitialized = true)

theorem TrackerInv_trackEvent (env : Env) (s : TrackerState) (t : String)
    (d : Option CustomData) (h : TrackerInv s) : TrackerInv (trackEvent env s t d) := by
  obtain ⟨h1, h2, h3⟩ := h
  unfold trackEvent
  by_cases hi : s.isInitialized = false
  · rw [if_pos hi]
    exact ⟨h1, h2, h3⟩
  · rw [if_neg hi]
    have hi2 : s.isInitialized = true := by
      revert hi; cases s.isInitialized <;> simp
    refine ⟨fun _ => h1 hi2, ?_, fun _ => hi2⟩
    intro p hp
    rcases List.mem_append.mp hp with hp | hp
    · exact h2 p hp
    · have hp2 := List.mem_singleton.mp hp
      subst hp2
      exact ⟨rfl, h1 hi2⟩

theorem TrackerInv_processEventQueue (env : Env) (fuel : Nat) (s : TrackerState)
    (h : TrackerInv s) : TrackerInv (processEventQueue env fuel s).fst := by
  induction fuel generalizing s with
  | zero => exact h
  | succ fuel ih =>
    rw [processEventQueue]
    cases hq : s.eventQueue with
    | nil => exact h
    | cons e rest =>
      dsimp only
      exact ih _ (TrackerInv_trackEvent env { s with eventQueue := rest }
        e.eventType e.customData ⟨h.1, h.2.1, h.2.2⟩)

theorem TrackerInv_initCore (env : Env) (s1 : TrackerState) (h : TrackerInv s1) :
    TrackerInv (initCore env s1) := by
  unfold initCore
  dsimp only
  by_cases ha : s1.autoTrack = true
  · rw [if_pos ha]
    exact TrackerInv_trackEvent env _ _ _ ⟨h.1, h.2.1, h.2.2⟩
  · rw [if_neg ha]
    exact ⟨h.1, h.2.1, h.2.2⟩

theorem TrackerInv_init (env : Env) (fuel : Nat) (s : TrackerState)
    (tid : Option String) (h : TrackerInv s) : TrackerInv (init env fuel s tid).fst := by
  obtain ⟨h1, h2, h3⟩ := h
  unfold init
  by_cases hi : s.isInitialized = true
  · rw [if_pos hi]
    exact ⟨h1, h2, h3⟩
  · rw [if_neg hi]
    have hsent : s.sent = [] := by
      by_contra hne
      exact hi (h3 hne)
    have hInv1 : TrackerInv { s with trackingId := jsOr tid s.trackingId } := by
      refine ⟨fun hc => absurd hc hi, ?_, ?_⟩
      · intro p hp
        rw [show ({ s with trackingId := jsOr tid s.trackingId } :
          TrackerState).sent = s.sent from rfl, hsent] at hp
        exact absurd hp (List.not_mem_nil p)
      · intro hc
        exact absurd hsent hc
    by_cases ht : jsTruthy ({ s with trackingId := jsOr tid s.trackingId } :
        TrackerState).trackingId = false
    · rw [if_pos ht]
      exact hInv1
    · rw [if_neg ht]
      dsimp only
      have ht2 : jsTruthy (jsOr tid s.trackingId) = true := by
        revert ht; cases jsTruthy (jsOr tid s.trackingId) <;> simp
      have hI0 : ({ s with trackingId := jsOr tid s.trackingId } :
          TrackerState).isInitialized = false := by
        revert hi; cases s.isInitialized <;> simp
      obtain ⟨qa, qb, qc, qd⟩ := processEventQueue_uninit env fuel
        (initCore env { s with trackingId := jsOr tid s.trackingId })
        (initCore_facts env _ hI0).1
      have hcoreInv := TrackerInv_processEventQueue env fuel
        (initCore env { s with trackingId := jsOr tid s.trackingId })
        (TrackerInv_initCore env _ hInv1)
      by_cases hr : (processEventQueue env fuel
          (initCore env { s with trackingId := jsOr tid s.trackingId })).snd = true
      · rw [if_pos hr]
        have hsent2 : (processEventQueue env fuel
            (initCore env { s with trackingId := jsOr tid s.trackingId })).fst.sent = [] := by
          rw [qa, (initCore_facts env _ hI0).2.1, hsent]
        have htid2 : (processEventQueue env fuel
            (initCore env { s with trackingId := jsOr tid s.trackingId })).fst.trackingId =
            jsOr tid s.trackingId := by
          rw [qc, (initCore_facts env _ hI0).2.2.1]
        refine ⟨fun _ => ?_, ?_, fun hc => rfl⟩
        · rw [show ({ (processEventQueue env fuel
            (initCore env { s with trackingId := jsOr tid s.trackingId })).fst with
              isInitialized := true } : TrackerState).trackingId =
            (processEventQueue env fuel
            (initCore env { s with trackingId := jsOr tid s.trackingId })).fst.trackingId
            from rfl, htid2]
          exact ht2
        · intro p hp
          rw [show ({ (processEventQueue env fuel
            (initCore env { s with trackingId := jsOr tid s.trackingId })).fst with
              isInitialized := true } : TrackerState).sent =
            (processEventQueue env fuel
            (initCore env { s with trackingId := jsOr tid s.trackingId })).fst.sent
            from rfl, hsent2] at hp
          exact absurd hp (List.not_mem_nil p)
      · rw [if_neg hr]
        exact hcoreInv

theorem TrackerInv_stepCmd (env : Env) (s : TrackerState) (c : Cmd)
    (h : TrackerInv s) : TrackerInv (stepCmd env s c) := by
  cases c with
  | init tid fuel => exact TrackerInv_init env fuel s tid h
  | track t d => exact TrackerInv_trackEvent env s t d h
  | pageView d => exact TrackerInv_trackEvent env s "page_view" _ h

theorem TrackerInv_runCmds (env : Env) (s : TrackerState) (cmds : List Cmd)
    (h : TrackerInv s) : TrackerInv (runCmds env s cmds) := by
  induction cmds generalizing s with
  | nil => exact h
  | cons c cs ih => exact ih _ (TrackerInv_stepCmd env s c h)

theorem TrackerInv_initial (env : Env) : TrackerInv (initialTrackerState env) := by
  refine ⟨?_, ?_, ?_⟩
  · intro hc
    exact absurd hc (by simp [initialTrackerState])
  · intro p hp
    exact absurd hp (List.not_mem_nil p)
  · intro hc
    exact absurd rfl hc

theorem TrackerInv_scriptLoad (env : Env) (fuel : Nat) :
    TrackerInv (scriptLoad env fuel).fst := by
  unfold scriptLoad
  by_cases h : jsTruthy env.windowTrackingId = true
  · rw [if_pos h]
    exact TrackerInv_init env fuel _ _ (TrackerInv_initial env)
  · rw [if_neg h]
    exact TrackerInv_initial env

/-! ## Claim theorems -/

/-- C6: within a single page load, a scroll_depth event fires at most once
per threshold, and a lower depth never fires after a higher one, whatever
the sequence of computed scroll percentages: the emitted depth sequence is
strictly (hence monotonically) increasing and each value occurs at most
once. -/
theorem scroll_depth_strictly_increasing (ds : List Int) :
    (scrollEmits ds).Pairwise (· < ·) ∧
    ∀ d : Int, (scrollEmits ds).count d ≤ 1 := by
  refine ⟨scrollRun_pairwise 0 ds, ?_⟩
  intro d
  have hnd : (scrollEmits ds).Nodup :=
    (scrollRun_pairwise 0 ds).imp (fun h => ne_of_lt h)
  exact List.nodup_iff_count_le_one.mp hnd d

/-- C9: every scroll_depth event the tracker emits has depth 25, 50, 75 or
100: the emission guard requires the computed percentage to be at least 25,
at most 100 and an exact multiple of 25. -/
theorem scroll_depth_in_thresholds (ds : List Int) (d : Int)
    (h : d ∈ scrollEmits ds) : d = 25 ∨ d = 50 ∨ d = 75 ∨ d = 100 := by
  obtain ⟨-, h25, h100, hmod, -⟩ := scrollRun_mem h
  omega

theorem scroll_depth_in_thresholds_w :
    (50 : Int) = 25 ∨ (50 : Int) = 50 ∨ (50 : Int) = 75 ∨ (50 : Int) = 100 :=
  scroll_depth_in_thresholds [50] 50 (by decide)

/-- C4 counterexample: scrolling to 60% of the page emits no scroll_depth
event at all — in particular not one with depth 50, which the claim says
fires once. -/
theorem scroll_sixty_emits_no_event :
    scrollEmits [60] = [] ∧ (scrollEmits [60]).count 50 = 0 := by decide

/-- C4 amended: a scroll_depth event with depth d is emitted only when the
debounced computed percentage is exactly d, with 25 ≤ d ≤ 100 and d an
exact multiple of 25, and at most once per value; a percentage that merely
exceeds a threshold without landing on a multiple of 25 (such as 60)
emits nothing, while an exact multiple that exceeds the running maximum
(such as 50) does emit. -/
theorem scroll_emits_only_exact_multiples :
    (∀ (ds : List Int) (d : Int), d ∈ scrollEmits ds →
      25 ≤ d ∧ d ≤ 100 ∧ d % 25 = 0 ∧ d ∈ ds ∧ (scrollEmits ds).count d ≤ 1) ∧
    scrollEmits [60] = [] ∧ scrollEmits [30, 50, 60] = [50] := by
  refine ⟨?_, by decide, by decide⟩
  intro ds d h
  obtain ⟨-, h25, h100, hmod, hmem⟩ := scrollRun_mem h
  have hnd : (scrollEmits ds).Nodup :=
    (scrollRun_pairwise 0 ds).imp (fun hlt => ne_of_lt hlt)
  exact ⟨h25, h100, hmod, hmem, List.nodup_iff_count_le_one.mp hnd d⟩

theorem scroll_emits_only_exact_multiples_w :
    25 ≤ (50 : Int) ∧ (50 : Int) ≤ 100 ∧ (50 : Int) % 25 = 0 ∧
    (50 : Int) ∈ [(50 : Int)] ∧ (scrollEmits [50]).count 50 ≤ 1 :=
  scroll_emits_only_exact_multiples.1 [50] 50 (by decide)

/-- C1: every POST /track body missing any of trackingId, pageUrl,
sessionId or visitorId receives a 400 response with success=false whose
error message names each missing field, and no event is forwarded
downstream. -/
theorem track_missing_fields_rejected (body : TrackRequestBody)
    (ua ip ra : Option String)
    (h : body.trackingId = none ∨ body.pageUrl = none ∨
         body.sessionId = none ∨ body.visitorId = none) :
    (handleTrack body ua ip ra).status = 400 ∧
    (handleTrack body ua ip ra).success = false ∧
    (handleTrack body ua ip ra).forwarded = none ∧
    ∀ f : ReqField, fieldOf body f = none →
      strMentions ((handleTrack body ua ip ra).error.getD "")
        (reqFieldName f) = true := by
  have hc : (!(jsTruthy body.trackingId) || !(jsTruthy body.pageUrl) ||
      !(jsTruthy body.sessionId) || !(jsTruthy body.visitorId)) = true := by
    rcases h with h | h | h | h <;> rw [h] <;> simp [jsTruthy]
  unfold handleTrack
  rw [if_pos hc]
  refine ⟨rfl, rfl, rfl, ?_⟩
  intro f _
  cases f <;> decide

def bodyMissingIds : TrackRequestBody :=
  { trackingId := some "T1", eventType := none,
    pageUrl := some "https://x.com", pageTitle := none, referrer := none,
    sessionId := none, visitorId := none, customData := none }

theorem track_missing_fields_rejected_w :
    (handleTrack bodyMissingIds none none none).status = 400 ∧
    (handleTrack bodyMissingIds none none none).success = false ∧
    (handleTrack bodyMissingIds none none none).forwarded = none ∧
    strMentions ((handleTrack bodyMissingIds none none none).error.getD "")
      (reqFieldName ReqField.sessionId) = true ∧
    strMentions ((handleTrack bodyMissingIds none none none).error.getD "")
      (reqFieldName ReqField.visitorId) = true :=
  ⟨(track_missing_fields_rejected bodyMissingIds none none none
      (Or.inr (Or.inr (Or.inl rfl)))).1,
   (track_missing_fields_rejected bodyMissingIds none none none
      (Or.inr (Or.inr (Or.inl rfl)))).2.1,
   (track_missing_fields_rejected bodyMissingIds none none none
      (Or.inr (Or.inr (Or.inl rfl)))).2.2.1,
   (track_missing_fields_rejected bodyMissingIds none none none
      (Or.inr (Or.inr (Or.inl rfl)))).2.2.2 ReqField.sessionId rfl,
   (track_missing_fields_rejected bodyMissingIds none none none
      (Or.inr (Or.inr (Or.inl rfl)))).2.2.2 ReqField.visitorId rfl⟩

def bodyEmptySession : TrackRequestBody :=
  { trackingId := some "T1", eventType := none,
    pageUrl := some "https://x.com", pageTitle := none, referrer := none,
    sessionId := some "", visitorId := some "v1", customData := none }

/-- C2 counterexample: a body in which all four required keys are present
but sessionId is the empty string is answered with 400, not 200, so
presence of the four fields alone does not yield a success response. -/
theorem track_present_but_empty_field_rejected :
    bodyEmptySession.trackingId.isSome = true ∧
    bodyEmptySession.pageUrl.isSome = true ∧
    bodyEmptySession.sessionId.isSome = true ∧
    bodyEmptySession.visitorId.isSome = true ∧
    (handleTrack bodyEmptySession none none none).status = 400 ∧
    ¬(handleTrack bodyEmptySession none none none).status = 200 := by decide

/-- C2 amended: for every POST /track body in which all four required
fields are present with non-empty string values, the endpoint responds 200
with success=true and a string message, and forwards the event downstream
with every submitted field unchanged, eventType defaulted to page_view and
customData to the empty bag when omitted, enriched only with the
server-observed user agent and client network address. -/
theorem track_truthy_fields_accepted (body : TrackRequestBody)
    (ua ip ra : Option String)
    (h1 : jsTruthy body.trackingId = true) (h2 : jsTruthy body.pageUrl = true)
    (h3 : jsTruthy body.sessionId = true) (h4 : jsTruthy body.visitorId = true) :
    (handleTrack body ua ip ra).status = 200 ∧
    (handleTrack body ua ip ra).success = true ∧
    (handleTrack body ua ip ra).message = some "Event tracked successfully" ∧
    (handleTrack body ua ip ra).forwarded = some {
      trackingId := body.trackingId,
      eventType := body.eventType.getD "page_view",
      pageUrl := body.pageUrl,
      pageTitle := body.pageTitle,
      referrer := body.referrer,
      sessionId := body.sessionId,
      visitorId := body.visitorId,
      userAgent := jsOrStr ua "",
      ipAddress := jsOrStr ip (jsOrStr ra ""),
      customData := body.customData.getD [] } := by
  have hc : (!(jsTruthy body.trackingId) || !(jsTruthy body.pageUrl) ||
      !(jsTruthy body.sessionId) || !(jsTruthy body.visitorId)) = false := by
    rw [h1, h2, h3, h4]
    rfl
  unfold handleTrack
  rw [if_neg (by simp [hc])]
  exact ⟨rfl, rfl, rfl, rfl⟩

def bodyValid : TrackRequestBody :=
  { trackingId := some "T1", eventType := none,
    pageUrl := some "https://x.com", pageTitle := some "X", referrer := none,
    sessionId := some "sess", visitorId := some "vis", customData := none }

theorem track_truthy_fields_accepted_w :
    (handleTrack bodyValid (some "UA") (some "1.2.3.4") none).status = 200 ∧
    (handleTrack bodyValid (some "UA") (some "1.2.3.4") none).forwarded = some {
      trackingId := some "T1", eventType := "page_view",
      pageUrl := some "https://x.com", pageTitle := some "X", referrer := none,
      sessionId := some "sess", visitorId := some "vis",
      userAgent := "UA", ipAddress := "1.2.3.4", customData := [] } :=
  ⟨(track_truthy_fields_accepted bodyValid (some "UA") (some "1.2.3.4") none
      (by decide) (by decide) (by decide) (by decide)).1,
   (track_truthy_fields_accepted bodyValid (some "UA") (some "1.2.3.4") none
      (by decide) (by decide) (by decide) (by decide)).2.2.2⟩

/-- C8: a required field that is present but equal to the empty string is
treated exactly like an absent field: the endpoint answers 400 with
success=false, forwards nothing, and produces the very same result as for
the body with that field removed. -/
theorem track_empty_field_like_absent (body : TrackRequestBody)
    (ua ip ra : Option String) (f : ReqField)
    (h : fieldOf body f = some "") :
    (handleTrack body ua ip ra).status = 400 ∧
    (handleTrack body ua ip ra).success = false ∧
    (handleTrack body ua ip ra).forwarded = none ∧
    handleTrack body ua ip ra = handleTrack (setField body f none) ua ip ra := by
  have hmt : jsTruthy (some "") = false := rfl
  have hnn : jsTruthy (none : Option String) = false := rfl
  cases f with
  | trackingId =>
    simp only [fieldOf] at h
    have hL : (!(jsTruthy body.trackingId) || !(jsTruthy body.pageUrl) ||
        !(jsTruthy body.sessionId) || !(jsTruthy body.visitorId)) = true := by
      rw [h, hmt]; rfl
    have hR : (!(jsTruthy (setField body ReqField.trackingId none).trackingId) ||
        !(jsTruthy (setField body ReqField.trackingId none).pageUrl) ||
        !(jsTruthy (setField body ReqField.trackingId none).sessionId) ||
        !(jsTruthy (setField body ReqField.trackingId none).visitorId)) = true := by
      simp only [setField, hnn]; rfl
    unfold handleTrack
    rw [if_pos hL, if_pos hR]
    exact ⟨rfl, rfl, rfl, rfl⟩
  | pageUrl =>
    simp only [fieldOf] at h
    have hL : (!(jsTruthy body.trackingId) || !(jsTruthy body.pageUrl) ||
        !(jsTruthy body.sessionId) || !(jsTruthy body.visitorId)) = true := by
      rw [h, hmt]; simp
    have hR : (!(jsTruthy (setField body ReqField.pageUrl none).trackingId) ||
        !(jsTruthy (setField body ReqField.pageUrl none).pageUrl) ||
        !(jsTruthy (setField body ReqField.pageUrl none).sessionId) ||
        !(jsTruthy (setField body ReqField.pageUrl none).visitorId)) = true := by
      simp only [setField, hnn]; simp
    unfold handleTrack
    rw [if_pos hL, if_pos hR]
    exact ⟨rfl, rfl, rfl, rfl⟩
  | sessionId =>
    simp only [fieldOf] at h
    have hL : (!(jsTruthy body.trackingId) || !(jsTruthy body.pageUrl) ||
        !(jsTruthy body.sessionId) || !(jsTruthy body.visitorId)) = true := by
      rw [h, hmt]; simp
    have hR : (!(jsTruthy (setField body ReqField.sessionId none).trackingId) ||
        !(jsTruthy (setField body ReqField.sessionId none).pageUrl) ||
        !(jsTruthy (setField body ReqField.sessionId none).sessionId) ||
        !(jsTruthy (setField body ReqField.sessionId none).visitorId)) = true := by
      simp only [setField, hnn]; simp
    unfold handleTrack
    rw [if_pos hL, if_pos hR]
    exact ⟨rfl, rfl, rfl, rfl⟩
  | visitorId =>
    simp only [fieldOf] at h
    have hL : (!(jsTruthy body.trackingId) || !(jsTruthy body.pageUrl) ||
        !(jsTruthy body.sessionId) || !(jsTruthy body.visitorId)) = true := by
      rw [h, hmt]; simp
    have hR : (!(jsTruthy (setField body ReqField.visitorId none).trackingId) ||
        !(jsTruthy (setField body ReqField.visitorId none).pageUrl) ||
        !(jsTruthy (setField body ReqField.visitorId none).sessionId) ||
        !(jsTruthy (setField body ReqField.visitorId none).visitorId)) = true := by
      simp only [setField, hnn]; simp
    unfold handleTrack
    rw [if_pos hL, if_pos hR]
    exact ⟨rfl, rfl, rfl, rfl⟩

theorem track_empty_field_like_absent_w :
    (handleTrack bodyEmptySession none none none).status = 400 ∧
    handleTrack bodyEmptySession none none none =
      handleTrack (setField bodyEmptySession ReqField.sessionId none)
        none none none :=
  ⟨(track_empty_field_like_absent bodyEmptySession none none none
      ReqField.sessionId rfl).1,
   (track_empty_field_like_absent bodyEmptySession none none none
      ReqField.sessionId rfl).2.2.2⟩

theorem trackingStep_zero (c : Nat) (hc : c < 1000) :
    trackingStep none (some { windowStart := 0, count := c }) 0 =
      (some { windowStart := 0, count := c + 1 }, none) := by
  unfold trackingStep rlStep
  simp [trackingWindowMs, trackingMax, hc]

theorem rlTrace_zeros (k : Nat) : ∀ c : Nat, c + k ≤ 1000 →
    (List.replicate k 0).foldl (fun w t => (trackingStep none w t).fst)
      (some { windowStart := 0, count := c }) =
      some { windowStart := 0, count := c + k } := by
  induction k with
  | zero => intro c _; simp
  | succ k ih =>
    intro c hck
    rw [List.replicate_succ, List.foldl_cons, trackingStep_zero c (by omega)]
    rw [ih (c + 1) (by omega)]
    congr 2
    omega

theorem rlRunTrace_thousand :
    rlRunTrace none (List.replicate 1000 0) =
      some { windowStart := 0, count := 1000 } := by
  unfold rlRunTrace
  rw [show List.replicate 1000 (0 : Nat) = 0 :: List.replicate 999 0 by
    rw [show (1000 : Nat) = 999 + 1 from rfl, List.replicate_succ]]
  rw [List.foldl_cons]
  rw [show (trackingStep none none 0).fst =
    some { windowStart := 0, count := 1 } by decide]
  rw [rlTrace_zeros 999 1 (by omega)]

/-- C5 counterexample: with the default tracking policy (1-minute window,
max 1000), after 1000 requests at time 0 the request arriving at 30000 ms
is rejected, but the response carries retryAfter = 60 seconds although
only 30000 ms (30 seconds) remain until window expiry — the retryAfter is
the constant full window length, not the remaining time. -/
theorem tracking_reject_retryAfter_constant :
    rlRunTrace none (List.replicate 1000 0) =
      some { windowStart := 0, count := 1000 } ∧
    (trackingStep none (some { windowStart := 0, count := 1000 }) 30000).snd =
      some trackingRejectResponse ∧
    trackingRejectResponse.retryAfter = 60 ∧
    remainingMs trackingWindowMs { windowStart := 0, count := 1000 } 30000
      = 30000 ∧
    trackingRejectResponse.retryAfter * 1000 ≠ 30000 :=
  ⟨rlRunTrace_thousand, by decide, by decide, by decide, by decide⟩

/-- C5 amended: when a request from a key arrives while the key's current
window holds at least the policy maximum, the tracking rate limiter
rejects it with a 429 response whose retryAfter is the constant 60 — the
full 1-minute window length in seconds, an upper bound on (but not the
computed value of) the remaining window time; the event-ingestion policy
is a 1-minute (60000 ms) window with a configurable maximum defaulting
to 1000. -/
theorem tracking_reject_is_429_retryAfter_60 (envMax : Option Nat)
    (w : RLWindow) (now : Nat) (h0 : w.windowStart ≤ now)
    (h1 : now < w.windowStart + trackingWindowMs)
    (h2 : trackingMax envMax ≤ w.count) :
    (trackingStep envMax (some w) now).snd = some trackingRejectResponse ∧
    trackingRejectResponse.status = 429 ∧
    trackingRejectResponse.retryAfter = 60 ∧
    trackingRejectResponse.retryAfter * 1000 = trackingWindowMs ∧
    remainingMs trackingWindowMs w now ≤
      trackingRejectResponse.retryAfter * 1000 ∧
    trackingWindowMs = 60000 ∧ trackingMax none = 1000 ∧
    ∀ n : Nat, trackingMax (some n) = n := by
  have hne : ¬ (w.windowStart + trackingWindowMs ≤ now) := by omega
  have hge : ¬ (w.count < trackingMax envMax) := by omega
  unfold trackingStep rlStep
  simp only [hne, if_false, hge]
  refine ⟨?_, rfl, rfl, rfl, ?_, rfl, rfl, fun n => rfl⟩
  · simp
  · rw [show trackingRejectResponse.retryAfter = 60 from rfl]
    unfold remainingMs
    unfold trackingWindowMs at h1 ⊢
    omega

theorem tracking_reject_is_429_retryAfter_60_w :
    (trackingStep none (some { windowStart := 0, count := 1000 }) 30000).snd =
      some trackingRejectResponse ∧
    trackingRejectResponse.status = 429 ∧
    trackingRejectResponse.retryAfter = 60 :=
  ⟨(tracking_reject_is_429_retryAfter_60 none { windowStart := 0, count := 1000 }
      30000 (by decide) (by decide) (by decide)).1,
   (tracking_reject_is_429_retryAfter_60 none { windowStart := 0, count := 1000 }
      30000 (by decide) (by decide) (by decide)).2.1,
   (tracking_reject_is_429_retryAfter_60 none { windowStart := 0, count := 1000 }
      30000 (by decide) (by decide) (by decide)).2.2.1⟩

/-- A concrete browser environment with auto-tracking disabled and no
global tracking id. -/
def envA : Env :=
  { windowTrackingId := none, autoTrack := false,
    storedVisitorId := none, freshVisitorId := "v1", freshSessionId := "s1",
    href := "https://example.com/", title := "Home", referrer := "",
    timestamp := "2026-01-01T00:00:00Z", userAgent := "UA",
    screenResolution := "1920x1080", viewportSize := "800x600",
    language := "en", timezone := "UTC" }

/-- A concrete browser environment with the global tracking id set and the
default auto-tracking. -/
def envB : Env :=
  { envA with windowTrackingId := some "T1", autoTrack := true }

/-- C3 (code bug): a trackEvent call made before initialization is queued,
but initialize never replays the queue: with a truthy effective tracking id
and a non-empty queue, for every loop-iteration bound the call is still
inside the processEventQueue loop (isInitialized is still false there, so
each dequeued event is immediately re-queued), initialization never
completes, and nothing is ever transmitted. -/
theorem queued_events_never_replayed (env : Env) (fuel : Nat)
    (s : TrackerState) (tid : Option String)
    (h0 : s.isInitialized = false) (hq : s.eventQueue ≠ [])
    (ht : jsTruthy (jsOr tid s.trackingId) = true) :
    (init env fuel s tid).snd = false ∧
    (init env fuel s tid).fst.sent = s.sent ∧
    (init env fuel s tid).fst.isInitialized = false :=
  init_stuck env fuel s tid h0 ht (Or.inl hq)

/-- An uninitialized tracker with one queued click event. -/
def stateQueued : TrackerState :=
  { trackingId := none, autoTrack := true, visitorId := none,
    sessionId := none, isInitialized := false,
    eventQueue := [{ eventType := "click", customData := none }],
    listenersInstalled := false, sent := [] }

theorem queued_events_never_replayed_w :
    (init envA 3 stateQueued (some "T1")).snd = false ∧
    (init envA 3 stateQueued (some "T1")).fst.sent = stateQueued.sent ∧
    (init envA 3 stateQueued (some "T1")).fst.isInitialized = false :=
  queued_events_never_replayed envA 3 stateQueued (some "T1")
    rfl (by decide) (by decide)

/-- C10 (code bug): when the global ANALYTICS_TRACKING_ID is set the script
does call init with it, and with auto-tracking at its default setting
trackPageView queues the initial page_view; but since isInitialized is set
only after the queue drain, the drain loop re-queues that event forever:
for every iteration bound the auto-initialization has not completed, no
payload (in particular no page_view) has been sent, and the tracker is
still uninitialized. -/
theorem auto_init_never_completes (env : Env) (fuel : Nat)
    (h1 : jsTruthy env.windowTrackingId = true) (h2 : env.autoTrack = true) :
    (scriptLoad env fuel).snd = false ∧
    (scriptLoad env fuel).fst.sent = [] ∧
    (scriptLoad env fuel).fst.isInitialized = false := by
  unfold scriptLoad
  rw [if_pos h1]
  have h := init_stuck env fuel (initialTrackerState env) env.windowTrackingId
    rfl (by simp [jsOr, h1, initialTrackerState])
    (Or.inr (by rw [show (initialTrackerState env).autoTrack = env.autoTrack
      from rfl]; exact h2))
  exact ⟨h.1, by rw [h.2.1]; rfl, h.2.2⟩

theorem auto_init_never_completes_w :
    (scriptLoad envB 3).snd = false ∧
    (scriptLoad envB 3).fst.sent = [] ∧
    (scriptLoad envB 3).fst.isInitialized = false :=
  auto_init_never_completes envB 3 (by decide) rfl

/-- C7: initializing with no tracking id (no argument and none configured)
is a hard no-op — the state comes back unchanged, so no identity is
created, no observers are installed and nothing is transmitted — and over
every interaction sequence from script load, every payload the tracker
hands to sendEvent carries the configured tracking id and that id is
truthy: no event is ever sent without a tracking id. -/
theorem no_payload_without_trackingId :
    (∀ (env : Env) (fuel : Nat) (s : TrackerState) (tid : Option String),
      s.isInitialized = false → jsTruthy tid = false →
      jsTruthy s.trackingId = false → init env fuel s tid = (s, true)) ∧
    (∀ (env : Env) (fuel0 : Nat) (cmds : List Cmd) (p : Payload),
      p ∈ (runCmds env (scriptLoad env fuel0).fst cmds).sent →
      p.trackingId = (runCmds env (scriptLoad env fuel0).fst cmds).trackingId ∧
      jsTruthy p.trackingId = true) := by
  constructor
  · intro env fuel s tid h0 h1 h2
    unfold init
    rw [if_neg (by simp [h0])]
    have hj : jsOr tid s.trackingId = s.trackingId := by
      unfold jsOr
      rw [h1]
      simp
    have he : ({ s with trackingId := jsOr tid s.trackingId } :
        TrackerState) = s := by
      rw [hj]
    rw [he, if_pos h2]
  · intro env fuel0 cmds p hp
    exact (TrackerInv_runCmds env (scriptLoad env fuel0).fst cmds
      (TrackerInv_scriptLoad env fuel0)).2.1 p hp

/-- The interaction trace used in the witness: an explicit init followed
by one custom event. -/
def cmdsW : List Cmd := [Cmd.init (some "T1") 1, Cmd.track "click" none]

/-- The payload the tracker sends for the trace cmdsW in envA. -/
def pW : Payload :=
  { trackingId := some "T1", visitorId := some "v1", sessionId := some "s1",
    eventType := "click", pageUrl := "https://example.com/",
    pageTitle := "Home", referrer := "",
    timestamp := "2026-01-01T00:00:00Z", customData := [] }

theorem no_payload_without_trackingId_w :
    init envA 0 (initialTrackerState envA) none =
      (initialTrackerState envA, true) ∧
    pW.trackingId = (runCmds envA (scriptLoad envA 0).fst cmdsW).trackingId ∧
    jsTruthy pW.trackingId = true :=
  ⟨no_payload_without_trackingId.1 envA 0 (initialTrackerState envA) none
      rfl rfl (by decide),
   (no_payload_without_trackingId.2 envA 0 cmdsW pW (by decide)).1,
   (no_payload_without_trackingId.2 envA 0 cmdsW pW (by decide)).2⟩
